import Mathlib

/-!
Shallow embedding of the standup-bot scheduling and session-lifecycle core
(Go sources: internal/standup/service.go, the scheduler in the standup
package, and the DynamoDB store implementation), together with theorems
settling the specification claims about it.

Modelling conventions:
* Machine integers are `Nat`/`Int`; Go strings are `String`.
* The DynamoDB table is a key -> item map, encoded as Lean lists of items;
  a PutItem upsert removes the old entry for the key and appends the new one.
* Go `error` results become `Except String`; the store sentinel errors that
  the code inspects (`ErrNotFound`, `ErrAlreadyExists`) are modelled by
  `Option` results and the `StoreErr` type.
* External Slack calls are an oracle (`SlackEnv`); every attempted call is
  logged in the world's `calls` trace, so "the notifier was invoked" is a
  statement about that trace.
* `time.Now()` and timezone conversion (`time.LoadLocation` / `In(loc)` /
  `Format`) are abstracted by a `Clock` record supplying the server-local
  date and, per timezone name, the channel-local date, HH:MM time and
  weekday; Go's fall-back to UTC on an invalid timezone name is folded into
  these abstract per-timezone functions.
* `uuid.New().String()` is a fresh-name supply drawn from a counter.
-/

namespace StandupBot

/-! ### Go `time.Parse("15:04", s)` for HH:MM strings -/

/-- One decimal digit of a `Char`, if it is a digit (Go `isDigit`). -/
def digitVal (c : Char) : Option Nat :=
  if c.isDigit then some (c.toNat - 48) else none

/-- Go `getnum(value, fixed := false)`: read a 1- or 2-digit number. -/
def getnumFlexible : List Char → Option (Nat × List Char)
  | [] => none
  | c1 :: rest =>
    match digitVal c1 with
    | none => none
    | some d1 =>
      match rest with
      | [] => some (d1, [])
      | c2 :: rest2 =>
        match digitVal c2 with
        | none => some (d1, rest)
        | some d2 => some (d1 * 10 + d2, rest2)

/-- Go `getnum(value, fixed := true)`: read exactly 2 digits. -/
def getnumFixed : List Char → Option (Nat × List Char)
  | c1 :: c2 :: rest =>
    match digitVal c1, digitVal c2 with
    | some d1, some d2 => some (d1 * 10 + d2, rest)
    | _, _ => none
  | _ => none

/-- Go `time.Parse("15:04", s)`, reduced to the total minutes since
midnight: a 1-2 digit hour in 0..23 (layout `15`), a literal colon, a
2-digit minute in 0..59 (layout `04`), and no trailing text. Any failure
yields `none` (Go returns an error). -/
def parseHHMM (s : String) : Option Nat :=
  match getnumFlexible s.toList with
  | none => none
  | some (hour, rest) =>
    match rest with
    | ':' :: rest2 =>
      match getnumFixed rest2 with
      | none => none
      | some (minute, rest3) =>
        if rest3 = [] ∧ hour < 24 ∧ minute < 60 then
          some (hour * 60 + minute)
        else
          none
    | _ => none

/-- Scheduler `isTimeMatch(currentTime, scheduledTime)`: parse both as
HH:MM; on any parse error return `false`; otherwise due iff the difference
`current - scheduled` in minutes is in `[0, 1)`. -/
def isTimeMatch (currentTime scheduledTime : String) : Bool :=
  match parseHHMM currentTime, parseHHMM scheduledTime with
  | some current, some scheduled =>
    let diff : Int := (current : Int) - (scheduled : Int)
    decide (0 ≤ diff ∧ diff < 1)
  | _, _ => false

/-! ### Weekdays and the scheduler's active-day check -/

/-- Go `time.Weekday`. -/
inductive GoWeekday : Type
  | sunday | monday | tuesday | wednesday | thursday | friday | saturday
deriving DecidableEq

/-- The scheduler's `dayMap` literal: only the exact three-letter day names
are keys of the Go map; lookup of any other string misses. -/
def dayMap (s : String) : Option GoWeekday :=
  if s = "Sun" then some .sunday
  else if s = "Mon" then some .monday
  else if s = "Tue" then some .tuesday
  else if s = "Wed" then some .wednesday
  else if s = "Thu" then some .thursday
  else if s = "Fri" then some .friday
  else if s = "Sat" then some .saturday
  else none

/-! ### Store data model (internal/store/types.go) -/

/-- `store.SessionStatus` is a Go string type; the zero value is `""`. -/
def sessionPending : String := "pending"

/-- `store.SessionCompleted`. -/
def sessionCompleted : String := "completed"

/-- `store.Session`. `sessionID` holds the generated uuid string;
`createdAt`/`completedAt` are abstract timestamps. -/
structure Session : Type where
  sessionID : String
  channelID : String
  date : String
  status : String
  summaryPosted : Bool
  createdAt : Nat
  completedAt : Option Nat
deriving DecidableEq

/-- `store.UserResponse`. The Go `map[string]string` of answers is an
association list. -/
structure UserResponse : Type where
  sessionID : String
  channelID : String
  date : String
  userID : String
  userName : String
  responses : List (String × String)
  submittedAt : Nat
  reminderCount : Nat
deriving DecidableEq

/-- One stored user-response item. The DynamoDB key (`SESSION#ch#date`,
`USER#user`) is kept separately from the unmarshalled attributes, because
`IncrementReminderCount` can create an item that has the key but lacks the
`user_id` and other attributes (they unmarshal to Go zero values). -/
structure RespItem : Type where
  kChannel : String
  kDate : String
  kUser : String
  val : UserResponse
deriving DecidableEq

/-- `store.Reminder`. All attributes are also written back as the key, so
key and attributes are collapsed. -/
structure Reminder : Type where
  channelID : String
  date : String
  userID : String
  time : String
  sentAt : Nat
  messageTS : String
deriving DecidableEq

/-- `store.ScheduleConfig`. -/
structure ScheduleConfig : Type where
  timezone : String
  summaryTime : String
  reminderTimes : List String
  activeDays : List String
deriving DecidableEq

/-- `store.ChannelConfig` (the templates/questions fields are not used by
any modelled operation and are omitted). -/
structure ChannelConfig : Type where
  teamID : String
  channelID : String
  channelName : String
  enabled : Bool
  schedule : ScheduleConfig
  users : List String
deriving DecidableEq

/-- The DynamoDB table contents relevant to the core: channel configs,
sessions, user responses and reminder records, each list encoding a
key -> item map. -/
structure StoreState : Type where
  configs : List ChannelConfig
  sessions : List Session
  responses : List RespItem
  reminders : List Reminder
deriving DecidableEq

/-- The only store error the service code inspects on writes. -/
inductive StoreErr : Type
  | alreadyExists
deriving DecidableEq

/-! ### Generic upsert/lookup lemma kit for the list-encoded maps -/

/-- Upsert into a key -> item list: drop any entry whose key matches `p`,
then append the new item (DynamoDB PutItem / UpdateItem by key). -/
def upsert {α : Type} (p : α → Bool) (l : List α) (x : α) : List α :=
  l.filter (fun a => !p a) ++ [x]

theorem find?_filterNot {α : Type} (p : α → Bool) (l : List α) :
    (l.filter (fun a => !p a)).find? p = none := by
  induction l with
  | nil => rfl
  | cons a l ih =>
    by_cases h : p a = true
    · simp [List.filter, h, ih]
    · simp only [Bool.not_eq_true] at h
      simp [List.filter, h, List.find?, ih]

theorem find?_filterNot_of_disjoint {α : Type} (p q : α → Bool)
    (h : ∀ a, q a = true → p a = false) (l : List α) :
    (l.filter (fun a => !p a)).find? q = l.find? q := by
  induction l with
  | nil => rfl
  | cons a l ih =>
    by_cases hp : p a = true
    · have hq : q a = false := by
        cases hqa : q a with
        | false => rfl
        | true => rw [h a hqa] at hp; exact absurd hp (by simp)
      simp [List.filter, hp, List.find?, hq, ih]
    · simp only [Bool.not_eq_true] at hp
      cases hq : q a with
      | false => simp [List.filter, hp, List.find?, hq, ih]
      | true => simp [List.filter, hp, List.find?, hq]

theorem find?_append_of_none {α : Type} (p : α → Bool) (l l' : List α)
    (h : l.find? p = none) : (l ++ l').find? p = l'.find? p := by
  induction l with
  | nil => rfl
  | cons a l ih =>
    cases hp : p a with
    | false =>
      simp only [List.find?, hp] at h
      simpa [List.find?, hp] using ih h
    | true => simp [List.find?, hp] at h

theorem find?_upsert_self {α : Type} (p : α → Bool) (l : List α) (x : α)
    (hx : p x = true) : (upsert p l x).find? p = some x := by
  rw [upsert, find?_append_of_none p _ _ (find?_filterNot p l)]
  simp [List.find?, hx]

theorem find?_append_none_right {α : Type} (p : α → Bool) (l l' : List α)
    (h : l'.find? p = none) : (l ++ l').find? p = l.find? p := by
  induction l with
  | nil => simpa using h
  | cons a l ih =>
    cases hp : p a with
    | false => simpa [List.find?, hp] using ih
    | true => simp [List.find?, hp]

theorem find?_upsert_other {α : Type} (p q : α → Bool) (l : List α) (x : α)
    (hx : q x = false) (h : ∀ a, q a = true → p a = false) :
    (upsert p l x).find? q = l.find? q := by
  have h2 : ([x] : List α).find? q = none := by simp [List.find?, hx]
  rw [upsert, find?_append_none_right q _ _ h2,
    find?_filterNot_of_disjoint p q h l]

/-! ### Store operations (DynamoDB implementation, modelled pure) -/

/-- Key predicate of the session item `SESSION#channel#date`. -/
def sessionKeyIs (c d : String) (s : Session) : Bool :=
  s.channelID == c && s.date == d

/-- Key predicate of the response item (`SESSION#channel#date`, `USER#user`). -/
def respKeyIs (c d u : String) (it : RespItem) : Bool :=
  it.kChannel == c && it.kDate == d && it.kUser == u

/-- Key predicate of the reminder item
(`REMINDER#channel#date`, `USER#user#time`). -/
def reminderKeyIs (c d u t : String) (r : Reminder) : Bool :=
  r.channelID == c && r.date == d && r.userID == u && r.time == t

/-- `Store.GetSession`: `none` models the `ErrNotFound` result. -/
def getSessionOpt (st : StoreState) (channelID date : String) : Option Session :=
  st.sessions.find? (sessionKeyIs channelID date)

/-- `Store.CreateSession`: conditional put with
`attribute_not_exists(PK)` — fails with `ErrAlreadyExists` instead of
overwriting when an item with the key is present. -/
def createSession (st : StoreState) (session : Session) :
    Except StoreErr StoreState :=
  match getSessionOpt st session.channelID session.date with
  | some _ => Except.error StoreErr.alreadyExists
  | none => Except.ok { st with sessions := st.sessions ++ [session] }

/-- `Store.MarkSummaryPosted`: UpdateItem setting `summary_posted = true`.
When the key is absent DynamoDB upserts a partial item whose missing
attributes unmarshal to Go zero values. -/
def markSummaryPosted (st : StoreState) (channelID date : String) : StoreState :=
  match getSessionOpt st channelID date with
  | some s =>
    let posted : Session := { s with summaryPosted := true }
    { st with sessions := upsert (sessionKeyIs channelID date) st.sessions posted }
  | none =>
    { st with sessions := st.sessions ++
        [{ sessionID := "", channelID := channelID, date := date, status := "",
           summaryPosted := true, createdAt := 0, completedAt := none }] }

/-- `Store.UpdateSessionStatus`: UpdateItem setting `status`, plus
`completed_at` when the new status is `completed` (the store stamps it with
its own `time.Now()`, here the `now` argument). Absent key upserts a
partial item. -/
def updateSessionStatus (st : StoreState) (channelID date status : String)
    (now : Nat) : StoreState :=
  match getSessionOpt st channelID date with
  | some s =>
    let updated : Session :=
      { s with status := status,
               completedAt :=
                 if status == sessionCompleted then some now
                 else s.completedAt }
    { st with sessions := upsert (sessionKeyIs channelID date) st.sessions updated }
  | none =>
    { st with sessions := st.sessions ++
        [{ sessionID := "", channelID := channelID, date := date,
           status := status, summaryPosted := false, createdAt := 0,
           completedAt :=
             if status == sessionCompleted then some now else none }] }

/-- `Store.SaveUserResponse`: unconditional PutItem — replaces the whole
item at (`channel`, `date`, `user`). -/
def saveUserResponse (st : StoreState) (r : UserResponse) : StoreState :=
  let item : RespItem :=
    { kChannel := r.channelID, kDate := r.date, kUser := r.userID, val := r }
  { st with responses := upsert (respKeyIs r.channelID r.date r.userID) st.responses item }

/-- `Store.GetUserResponse`: `none` models `ErrNotFound`. -/
def getUserResponseOpt (st : StoreState) (channelID date userID : String) :
    Option UserResponse :=
  (st.responses.find? (respKeyIs channelID date userID)).map RespItem.val

/-- `Store.ListUserResponses`: query all items under
`SESSION#channel#date` whose sort key begins with `USER#`. -/
def listUserResponses (st : StoreState) (channelID date : String) :
    List UserResponse :=
  (st.responses.filter
      (fun it => it.kChannel == channelID && it.kDate == date)).map RespItem.val

/-- `Store.IncrementReminderCount`: UpdateItem `ADD reminder_count 1`.
On an absent key DynamoDB creates an item holding only the key and the
counter; its other attributes unmarshal to Go zero values. -/
def incrementReminderCount (st : StoreState) (channelID date userID : String) :
    StoreState :=
  match st.responses.find? (respKeyIs channelID date userID) with
  | some it =>
    let bumped : RespItem :=
      { it with val := { it.val with reminderCount := it.val.reminderCount + 1 } }
    { st with responses := upsert (respKeyIs channelID date userID) st.responses bumped }
  | none =>
    { st with responses := st.responses ++
        [{ kChannel := channelID, kDate := date, kUser := userID,
           val := { sessionID := "", channelID := "", date := "", userID := "",
                    userName := "", responses := [], submittedAt := 0,
                    reminderCount := 1 } }] }

/-- `Store.SaveReminder`: PutItem keyed by (channel, date, user, time). -/
def saveReminder (st : StoreState) (r : Reminder) : StoreState :=
  { st with reminders := upsert (reminderKeyIs r.channelID r.date r.userID r.time) st.reminders r }

/-- `Store.ListReminders`: query all items under `REMINDER#channel#date`. -/
def listReminders (st : StoreState) (channelID date : String) : List Reminder :=
  st.reminders.filter (fun r => r.channelID == channelID && r.date == date)

/-- `Store.GetChannelConfig`, keyed by (`teamID`, `channelID`);
`none` models `ErrNotFound`. -/
def getChannelConfigOpt (st : StoreState) (teamID channelID : String) :
    Option ChannelConfig :=
  st.configs.find? (fun cc => cc.teamID == teamID && cc.channelID == channelID)

/-- `Store.GetUsersWithoutResponse`: fetch the day's responses, build the
set of responder ids, keep the roster entries not in it. -/
def getUsersWithoutResponse (st : StoreState) (channelID date : String)
    (userIDs : List String) : List String :=
  let responses := listUserResponses st channelID date
  userIDs.filter (fun userID => !(responses.any (fun r => r.userID == userID)))

/-! ### Clock, bot configuration, external Slack environment, world -/

/-- One frozen instant, as the code observes it. `serverDate` is
`time.Now().Format("2006-01-02")` in the process's own zone; the three
per-timezone functions model `now.In(loc)` followed by
`Format("2006-01-02")`, `Format("15:04")` and `.Weekday()` for the named
channel timezone (Go's fall-back to UTC on a bad timezone name is folded
into them); `stamp` abstracts the raw `time.Now()` timestamp. -/
structure Clock : Type where
  stamp : Nat
  serverDate : String
  localDate : String → String
  localTime : String → String
  localWeekday : String → GoWeekday

/-- A user entry of the YAML bot configuration (`config.User`). -/
structure BotUser : Type where
  id : String
  name : String
deriving DecidableEq

/-- A channel entry of the YAML bot configuration, as the service reads it
through `cfg.ChannelByID` (questions/templates carry no modelled data). -/
structure BotChannel : Type where
  id : String
  enabled : Bool
  users : List BotUser
deriving DecidableEq

/-- The YAML bot configuration (`botCtx.Config()`); `threadingEnabled`
models `IsFeatureEnabled("threading_enabled")`. -/
structure BotConfig : Type where
  channels : List BotChannel
  threadingEnabled : Bool
deriving DecidableEq

/-- `cfg.ChannelByID`. -/
def channelByID (cfg : BotConfig) (channelID : String) : Option BotChannel :=
  cfg.channels.find? (fun ch => ch.id == channelID)

/-- An attempted external Slack API call, as logged in the trace. -/
inductive ExtCall : Type
  | getUserInfo (userID : String)
  | openDM (userID : String)
  | postMessage (channel : String)
deriving DecidableEq

/-- Outcome oracle for the Slack client: what each call would return.
`postMessage` returns the message timestamp on success. -/
structure SlackEnv : Type where
  getUserInfo : String → Except String String
  openDM : String → Except String String
  postMessage : String → Except String String

/-- The mutable world: store contents, the uuid supply, and the
chronological trace of attempted external calls. -/
structure World : Type where
  store : StoreState
  uuidSeed : Nat
  calls : List ExtCall
deriving DecidableEq

/-- `uuid.New().String()` for the n-th draw of the supply. -/
def uuidString (n : Nat) : String :=
  "uuid-" ++ toString n

/-- Perform `slackClient.GetUserInfo`, logging the attempt. -/
def callGetUserInfo (env : SlackEnv) (w : World) (userID : String) :
    Except String String × World :=
  (env.getUserInfo userID, { w with calls := w.calls ++ [ExtCall.getUserInfo userID] })

/-- Perform `slackClient.OpenDM`, logging the attempt. -/
def callOpenDM (env : SlackEnv) (w : World) (userID : String) :
    Except String String × World :=
  (env.openDM userID, { w with calls := w.calls ++ [ExtCall.openDM userID] })

/-- Perform `slackClient.PostMessage`, logging the attempt. -/
def callPostMessage (env : SlackEnv) (w : World) (channel : String) :
    Except String String × World :=
  (env.postMessage channel, { w with calls := w.calls ++ [ExtCall.postMessage channel] })

/-! ### Service (internal/standup/service.go) -/

/-- `standup.Submission`. -/
structure Submission : Type where
  sessionID : String
  channelID : String
  date : String
  userID : String
  userName : String
  responses : List (String × String)
deriving DecidableEq

/-- The create-or-recover tail of `Service.StartStandupSession`: construct
and conditionally create the given session; on `ErrAlreadyExists` (a
concurrent creator won the race) fall back to reading the existing record
(`ErrNotFound` from that read propagates as an error, as in the source). -/
def createOrRecover (clock : Clock) (w : World) (channelID : String)
    (session : Session) : Except String Session × World :=
  match createSession w.store session with
  | Except.error StoreErr.alreadyExists =>
    match getSessionOpt w.store channelID clock.serverDate with
    | some s => (Except.ok s, w)
    | none => (Except.error "Item not found", w)
  | Except.ok st => (Except.ok session, { w with store := st })

/-- `Service.StartStandupSession`: get-or-create the session for
(`channelID`, server-local today). Note the date is
`time.Now().Format("2006-01-02")` — the server-local calendar day. -/
def startStandupSession (clock : Clock) (w : World) (channelID : String) :
    Except String Session × World :=
  let today := clock.serverDate
  match getSessionOpt w.store channelID today with
  | some existing => (Except.ok existing, w)
  | none =>
    let session : Session :=
      { sessionID := uuidString w.uuidSeed, channelID := channelID,
        date := today, status := sessionPending, summaryPosted := false,
        createdAt := clock.stamp, completedAt := none }
    let w1 : World := { w with uuidSeed := w.uuidSeed + 1 }
    createOrRecover clock w1 channelID session

/-- `Service.postResponseToChannel`: look up the bot-config channel, then
post the formatted response to the channel. -/
def postResponseToChannel (cfg : BotConfig) (env : SlackEnv) (w : World)
    (sub : Submission) : Except String Unit × World :=
  match channelByID cfg sub.channelID with
  | none => (Except.error "channel not configured", w)
  | some _channel =>
    let (res, w1) := callPostMessage env w sub.channelID
    match res with
    | Except.error e => (Except.error e, w1)
    | Except.ok _ts => (Except.ok (), w1)

/-- `Service.SubmitStandupResponse`: build the response record with
`ReminderCount: 0`, save it (unconditional overwrite), then — only when the
threading feature is enabled — post it to the channel, ignoring any
posting failure. -/
def submitStandupResponse (cfg : BotConfig) (env : SlackEnv) (clock : Clock)
    (w : World) (sub : Submission) : Except String Unit × World :=
  let response : UserResponse :=
    { sessionID := sub.sessionID, channelID := sub.channelID,
      date := sub.date, userID := sub.userID, userName := sub.userName,
      responses := sub.responses, submittedAt := clock.stamp,
      reminderCount := 0 }
  let w1 : World := { w with store := saveUserResponse w.store response }
  if cfg.threadingEnabled then
    let (_res, w2) := postResponseToChannel cfg env w1 sub
    (Except.ok (), w2)
  else
    (Except.ok (), w1)

/-- `Service.sendReminderToUser`: config lookup, `GetUserInfo`, `OpenDM`,
`PostMessage` to the DM channel; on success save the reminder record
(dated with the server-local day) and bump the reminder count, both
best-effort. -/
def sendReminderToUser (cfg : BotConfig) (env : SlackEnv) (clock : Clock)
    (w : World) (userID channelID _channelName reminderTime : String) :
    Except String Unit × World :=
  match channelByID cfg channelID with
  | none => (Except.error "channel not configured", w)
  | some _ =>
    let (uRes, w1) := callGetUserInfo env w userID
    match uRes with
    | Except.error e => (Except.error e, w1)
    | Except.ok _userName =>
      let (dmRes, w2) := callOpenDM env w1 userID
      match dmRes with
      | Except.error e => (Except.error e, w2)
      | Except.ok dmChannel =>
        let (postRes, w3) := callPostMessage env w2 dmChannel
        match postRes with
        | Except.error e => (Except.error e, w3)
        | Except.ok msgTS =>
          let reminder : Reminder :=
            { channelID := channelID, date := clock.serverDate,
              userID := userID, time := reminderTime,
              sentAt := clock.stamp, messageTS := msgTS }
          let st1 := saveReminder w3.store reminder
          let st2 := incrementReminderCount st1 channelID clock.serverDate userID
          (Except.ok (), { w3 with store := st2 })

/-- The per-user loop body of `Service.SendReminders`: a failure for one
user is logged and the loop continues with the rest. -/
def remindEach (cfg : BotConfig) (env : SlackEnv) (clock : Clock) :
    List String → World → String → String → String → World
  | [], w, _, _, _ => w
  | userID :: rest, w, channelID, channelName, reminderTime =>
    let (_res, w1) :=
      sendReminderToUser cfg env clock w userID channelID channelName reminderTime
    remindEach cfg env clock rest w1 channelID channelName reminderTime

/-- `Service.SendReminders`: fetch the channel config from the store (with
the unwired team id `""` of the source), skip disabled channels, compute
the missing users for the server-local day, and remind each of them. -/
def sendReminders (cfg : BotConfig) (env : SlackEnv) (clock : Clock)
    (w : World) (channelID reminderTime : String) :
    Except String Unit × World :=
  let today := clock.serverDate
  let teamID := ""
  match getChannelConfigOpt w.store teamID channelID with
  | none => (Except.error "failed to get channel config", w)
  | some channelConfig =>
    if !channelConfig.enabled then
      (Except.ok (), w)
    else
      let missingUsers :=
        getUsersWithoutResponse w.store channelID today channelConfig.users
      let w1 :=
        remindEach cfg env clock missingUsers w channelID
          channelConfig.channelName reminderTime
      (Except.ok (), w1)

/-- `Service.PostDailySummary`: read (or lazily create) the session for
(`channelID`, server-local today); skip when `summaryPosted` is already
set; otherwise look up the bot-config channel, post the summary message,
and only after a successful post mark the summary posted and complete the
session (both best-effort). -/
def postDailySummary (cfg : BotConfig) (env : SlackEnv) (clock : Clock)
    (w : World) (channelID : String) : Except String Unit × World :=
  let today := clock.serverDate
  let sessionResult : Except String Session × World :=
    match getSessionOpt w.store channelID today with
    | some s => (Except.ok s, w)
    | none => startStandupSession clock w channelID
  match sessionResult with
  | (Except.error e, w1) => (Except.error e, w1)
  | (Except.ok session, w1) =>
    if session.summaryPosted then
      (Except.ok (), w1)
    else
      match channelByID cfg channelID with
      | none => (Except.error "channel not configured", w1)
      | some _channel =>
        let (postRes, w2) := callPostMessage env w1 channelID
        match postRes with
        | Except.error _e => (Except.error "failed to post summary", w2)
        | Except.ok _ts =>
          let st1 := markSummaryPosted w2.store channelID today
          let st2 := updateSessionStatus st1 channelID today sessionCompleted clock.stamp
          (Except.ok (), { w2 with store := st2 })

/-! ### Scheduler (the standup package's Scheduler) -/

/-- `Scheduler.isActiveDay`: resolve the channel timezone (UTC fall-back
inside the clock), take the local weekday, and scan the configured
`ActiveDays` through the `dayMap` literal. -/
def isActiveDay (config : ChannelConfig) (clock : Clock) : Bool :=
  let weekday := clock.localWeekday config.schedule.timezone
  config.schedule.activeDays.any (fun activeDay =>
    match dayMap activeDay with
    | some day => day == weekday
    | none => false)

/-- The per-trigger-time loop of `Scheduler.processReminders`: for each
configured reminder time that is due now (channel-local wall clock), list
the day's reminder records under the channel-local date; if any record for
this trigger time exists, skip; otherwise send the reminders. An error
from `SendReminders` aborts the remaining trigger times (the source
returns). -/
def processRemindersLoop (cfg : BotConfig) (env : SlackEnv) (clock : Clock)
    (config : ChannelConfig) : List String → World → Except String Unit × World
  | [], w => (Except.ok (), w)
  | reminderTime :: rest, w =>
    let currentTimeStr := clock.localTime config.schedule.timezone
    if isTimeMatch currentTimeStr reminderTime then
      let today := clock.localDate config.schedule.timezone
      let reminders := listReminders w.store config.channelID today
      let alreadySent := reminders.any (fun r => r.time == reminderTime)
      if !alreadySent then
        match sendReminders cfg env clock w config.channelID reminderTime with
        | (Except.error e, w1) => (Except.error e, w1)
        | (Except.ok _, w1) => processRemindersLoop cfg env clock config rest w1
      else
        processRemindersLoop cfg env clock config rest w
    else
      processRemindersLoop cfg env clock config rest w

/-- `Scheduler.processReminders`. -/
def processReminders (cfg : BotConfig) (env : SlackEnv) (clock : Clock)
    (w : World) (config : ChannelConfig) : Except String Unit × World :=
  processRemindersLoop cfg env clock config config.schedule.reminderTimes w

/-- `Scheduler.processDailySummary`: when the summary time is due
(channel-local wall clock), read the session under the channel-local date;
post unless that session exists and already has `summaryPosted`. -/
def processDailySummary (cfg : BotConfig) (env : SlackEnv) (clock : Clock)
    (w : World) (config : ChannelConfig) : Except String Unit × World :=
  let currentTimeStr := clock.localTime config.schedule.timezone
  if isTimeMatch currentTimeStr config.schedule.summaryTime then
    let today := clock.localDate config.schedule.timezone
    match getSessionOpt w.store config.channelID today with
    | none => postDailySummary cfg env clock w config.channelID
    | some session =>
      if !session.summaryPosted then
        postDailySummary cfg env clock w config.channelID
      else
        (Except.ok (), w)
  else
    (Except.ok (), w)

/-- The per-channel loop of `Scheduler.ProcessScheduledTasks`: skip
non-active days; process reminders then the daily summary, logging (not
propagating) each channel's errors and continuing with the remaining
channels. -/
def processChannels (cfg : BotConfig) (env : SlackEnv) (clock : Clock) :
    List ChannelConfig → World → World
  | [], w => w
  | config :: rest, w =>
    if !isActiveDay config clock then
      processChannels cfg env clock rest w
    else
      let (_r1, w1) := processReminders cfg env clock w config
      let (_r2, w2) := processDailySummary cfg env clock w1 config
      processChannels cfg env clock rest w2

/-- `Scheduler.ProcessScheduledTasks`: a failure to list the active channel
configs (the injected `listResult`) aborts the whole tick; otherwise every
config is processed and the tick returns success. -/
def processScheduledTasks (cfg : BotConfig) (env : SlackEnv) (clock : Clock)
    (listResult : Except String (List ChannelConfig)) (w : World) :
    Except String Unit × World :=
  match listResult with
  | Except.error e => (Except.error ("failed to list active configs: " ++ e), w)
  | Except.ok configs => (Except.ok (), processChannels cfg env clock configs w)

/-- `Store.ListActiveChannelConfigs` on a healthy store: the GSI query for
`ACTIVE#true` returns exactly the enabled configs. -/
def listActiveChannelConfigs (st : StoreState) : List ChannelConfig :=
  st.configs.filter (fun cc => cc.enabled)

/-- One whole orchestrator tick against a healthy store. -/
def tick (cfg : BotConfig) (env : SlackEnv) (clock : Clock) (w : World) : World :=
  (processScheduledTasks cfg env clock (Except.ok (listActiveChannelConfigs w.store)) w).2

/-- `n` consecutive ticks with the clock frozen. -/
def tickIter (cfg : BotConfig) (env : SlackEnv) (clock : Clock) :
    Nat → World → World
  | 0, w => w
  | n + 1, w => tickIter cfg env clock n (tick cfg env clock w)

/-! ### Derived definitions and concrete scenarios -/

/-- `n` further sequential calls of `StartStandupSession` on the same
channel, keeping only the resulting world. -/
def startIter (clock : Clock) (channelID : String) : Nat → World → World
  | 0, w => w
  | n + 1, w => startIter clock channelID n (startStandupSession clock w channelID).2

/-- Rewrite every stored response's session identifier (used to state that
missing-participant computation ignores session identifiers). -/
def mapSessionIDs (g : String → String) (st : StoreState) : StoreState :=
  { st with responses := st.responses.map (fun it =>
      { it with val := { it.val with sessionID := g it.val.sessionID } }) }

/-- A reminder record for (channel, date, participant, trigger time) is
present in the store. -/
def hasReminderFor (st : StoreState) (c d u t : String) : Prop :=
  ∃ r ∈ st.reminders, r.channelID = c ∧ r.date = d ∧ r.userID = u ∧ r.time = t

/-- The three notifier calls one reminder costs, in order. -/
def reminderCalls (dm : String → String) (u : String) : List ExtCall :=
  [ExtCall.getUserInfo u, ExtCall.openDM u, ExtCall.postMessage (dm u)]

/-- Demo clock: a Monday morning at the summary minute, with the server and
the channel timezone agreeing on the date. -/
def demoClock : Clock :=
  { stamp := 100, serverDate := "2025-01-06",
    localDate := fun _ => "2025-01-06", localTime := fun _ => "09:00",
    localWeekday := fun _ => GoWeekday.monday }

/-- Demo schedule: summary at 09:00, no reminder times, active on Mondays. -/
def demoSchedule : ScheduleConfig :=
  { timezone := "UTC", summaryTime := "09:00", reminderTimes := [],
    activeDays := ["Mon"] }

/-- Demo store-side channel config for channel C1. -/
def demoConfig : ChannelConfig :=
  { teamID := "", channelID := "C1", channelName := "general",
    enabled := true, schedule := demoSchedule, users := ["X", "Y"] }

/-- Demo bot-side (YAML) configuration knowing channel C1. -/
def demoBotCfg : BotConfig :=
  { channels := [{ id := "C1", enabled := true,
                   users := [{ id := "X", name := "Xan" },
                             { id := "Y", name := "Yve" }] }],
    threadingEnabled := false }

/-- The bot-config channel entry for C1. -/
def demoBotChannel : BotChannel :=
  { id := "C1", enabled := true,
    users := [{ id := "X", name := "Xan" }, { id := "Y", name := "Yve" }] }

/-- Demo Slack environment in which every call succeeds. -/
def demoEnv : SlackEnv :=
  { getUserInfo := fun u => Except.ok ("name-" ++ u),
    openDM := fun u => Except.ok ("DM-" ++ u),
    postMessage := fun _ => Except.ok "ts1" }

/-- Demo world: channel C1 configured, nothing else stored yet. -/
def demoWorld : World :=
  { store := { configs := [demoConfig], sessions := [], responses := [],
               reminders := [] },
    uuidSeed := 0, calls := [] }

/-- A schedule whose active days are spelled out in full, which the
`dayMap` literal does not recognise. -/
def badDaysConfig : ChannelConfig :=
  { teamID := "", channelID := "C1", channelName := "general",
    enabled := true,
    schedule := { timezone := "UTC", summaryTime := "09:00",
                  reminderTimes := [], activeDays := ["Monday", "mon"] },
    users := ["X", "Y"] }

/-- Skew clock: frozen at an instant where the server-local calendar day is
2025-01-01 but the channel's timezone is already on 2025-01-02, at the
channel-local summary minute. -/
def skewClock : Clock :=
  { stamp := 100, serverDate := "2025-01-01",
    localDate := fun _ => "2025-01-02", localTime := fun _ => "04:30",
    localWeekday := fun _ => GoWeekday.thursday }

/-- Channel config for the skew scenario (summary at channel-local 04:30,
active on Thursdays). -/
def skewConfig : ChannelConfig :=
  { teamID := "", channelID := "C1", channelName := "general",
    enabled := true,
    schedule := { timezone := "Asia/Karachi", summaryTime := "04:30",
                  reminderTimes := [], activeDays := ["Thu"] },
    users := ["X", "Y"] }

/-- World for the skew scenario. -/
def skewWorld : World :=
  { store := { configs := [skewConfig], sessions := [], responses := [],
               reminders := [] },
    uuidSeed := 0, calls := [] }

/-- Clock frozen at the reminder minute 08:30 of 2025-01-06. -/
def remClock : Clock :=
  { stamp := 100, serverDate := "2025-01-06",
    localDate := fun _ => "2025-01-06", localTime := fun _ => "08:30",
    localWeekday := fun _ => GoWeekday.monday }

/-- Channel config with one reminder time 08:30 and a later summary. -/
def remConfig : ChannelConfig :=
  { teamID := "", channelID := "C1", channelName := "general",
    enabled := true,
    schedule := { timezone := "UTC", summaryTime := "10:00",
                  reminderTimes := ["08:30"], activeDays := ["Mon"] },
    users := ["X", "Y"] }

/-- The reminder record left by an earlier tick: participant X was already
nudged at 08:30; participant Y has no record. -/
def remRecordX : Reminder :=
  { channelID := "C1", date := "2025-01-06", userID := "X", time := "08:30",
    sentAt := 50, messageTS := "ts0" }

/-- World of the second tick: X's record exists, Y has none, nobody has
responded. -/
def remWorldDone : World :=
  { store := { configs := [remConfig], sessions := [], responses := [],
               reminders := [remRecordX] },
    uuidSeed := 0, calls := [] }

/-- World with no reminder records at all. -/
def remWorldEmpty : World :=
  { store := { configs := [remConfig], sessions := [], responses := [],
               reminders := [] },
    uuidSeed := 0, calls := [] }

/-- Store-side channel config used by the isolation scenario. -/
def isoConfig (cid : String) : ChannelConfig :=
  { teamID := "", channelID := cid, channelName := "general",
    enabled := true, schedule := demoSchedule, users := [] }

/-- Bot config knowing the three isolation-scenario channels. -/
def isoBotCfg : BotConfig :=
  { channels := [{ id := "CH1", enabled := true, users := [] },
                 { id := "CH2", enabled := true, users := [] },
                 { id := "CH3", enabled := true, users := [] }],
    threadingEnabled := false }

/-- Slack environment whose `PostMessage` fails for channel CH2 only. -/
def isoEnv : SlackEnv :=
  { getUserInfo := fun u => Except.ok ("name-" ++ u),
    openDM := fun u => Except.ok ("DM-" ++ u),
    postMessage := fun c =>
      if c = "CH2" then Except.error "slack API error: boom"
      else Except.ok "ts1" }

/-- World with the three isolation-scenario channels, all summary-due. -/
def isoWorld : World :=
  { store := { configs := [isoConfig "CH1", isoConfig "CH2", isoConfig "CH3"],
               sessions := [], responses := [], reminders := [] },
    uuidSeed := 0, calls := [] }

/-- The outcome of one orchestrator tick over the three isolation-scenario
channels, with channel CH2's notifier raising. -/
def isoResult : Except String Unit × World :=
  processScheduledTasks isoBotCfg isoEnv demoClock
    (Except.ok (listActiveChannelConfigs isoWorld.store)) isoWorld

/-- The world after one orchestrator tick in the skew scenario. -/
def skewResult : World := tick demoBotCfg demoEnv skewClock skewWorld

/-- A Slack environment whose summary post always fails. -/
def failEnv : SlackEnv :=
  { getUserInfo := fun u => Except.ok ("name-" ++ u),
    openDM := fun u => Except.ok ("DM-" ++ u),
    postMessage := fun _ => Except.error "slack API error: down" }

/-- A stored response of participant `u`, submitted at time `n`. -/
def demoResponse (u : String) (n : Nat) : UserResponse :=
  { sessionID := "uuid-9", channelID := "C1", date := "2025-01-06",
    userID := u, userName := u, responses := [("question_0", "did things")],
    submittedAt := n, reminderCount := 0 }

/-- Store holding responses from A only. -/
def storeRespA : StoreState :=
  saveUserResponse
    { configs := [demoConfig], sessions := [], responses := [], reminders := [] }
    (demoResponse "A" 1)

/-- Store holding responses from A and B. -/
def storeRespAB : StoreState :=
  saveUserResponse storeRespA (demoResponse "B" 2)

/-- Store holding responses from A, B and C. -/
def storeRespABC : StoreState :=
  saveUserResponse storeRespAB (demoResponse "C" 3)

/-- A submission used in concrete scenarios. -/
def demoSubmission : Submission :=
  { sessionID := "uuid-0", channelID := "C1", date := "2025-01-06",
    userID := "X", userName := "Xan",
    responses := [("question_0", "worked")] }

/-- A world in which X already has a stored response carrying seven
reminders. -/
def demoWorldReminded : World :=
  { store := { configs := [demoConfig], sessions := [],
               responses := [{ kChannel := "C1", kDate := "2025-01-06",
                               kUser := "X",
                               val := { demoResponse "X" 1 with reminderCount := 7 } }],
               reminders := [] },
    uuidSeed := 0, calls := [] }

/-! ### Helper lemmas about the store operations -/

theorem sessionKeyIs_self (c d : String) (s : Session)
    (h1 : s.channelID = c) (h2 : s.date = d) : sessionKeyIs c d s = true := by
  simp [sessionKeyIs, h1, h2]

theorem sessionKeyIs_disjoint (c d c' d' : String)
    (hne : ¬(c' = c ∧ d' = d)) :
    ∀ a : Session, sessionKeyIs c' d' a = true → sessionKeyIs c d a = false := by
  intro a ha
  simp only [sessionKeyIs, Bool.and_eq_true, beq_iff_eq] at ha
  cases hres : sessionKeyIs c d a with
  | false => rfl
  | true =>
    simp only [sessionKeyIs, Bool.and_eq_true, beq_iff_eq] at hres
    exact absurd ⟨ha.1.symm.trans hres.1, ha.2.symm.trans hres.2⟩ hne

theorem getSessionOpt_mark_self (st : StoreState) (c d : String) (s : Session)
    (h : getSessionOpt st c d = some s) :
    getSessionOpt (markSummaryPosted st c d) c d =
      some { s with summaryPosted := true } := by
  have h' : st.sessions.find? (sessionKeyIs c d) = some s := h
  have hk : sessionKeyIs c d s = true := List.find?_some h'
  have hk' : sessionKeyIs c d { s with summaryPosted := true } = true := by
    simpa [sessionKeyIs] using hk
  simp only [markSummaryPosted, getSessionOpt, h']
  exact find?_upsert_self _ _ _ hk'

theorem getSessionOpt_mark_frame (st : StoreState) (c d c' d' : String)
    (hne : ¬(c' = c ∧ d' = d)) :
    getSessionOpt (markSummaryPosted st c d) c' d' = getSessionOpt st c' d' := by
  have hdisj := sessionKeyIs_disjoint c d c' d' hne
  cases hfound : st.sessions.find? (sessionKeyIs c d) with
  | none =>
    have hstub : sessionKeyIs c' d'
        { sessionID := "", channelID := c, date := d, status := "",
          summaryPosted := true, createdAt := 0, completedAt := none } = false := by
      cases h' : sessionKeyIs c' d'
          { sessionID := "", channelID := c, date := d, status := "",
            summaryPosted := true, createdAt := 0, completedAt := none } with
      | false => rfl
      | true =>
        have := hdisj _ h'
        simp [sessionKeyIs] at this
    simp only [markSummaryPosted, getSessionOpt, hfound]
    rw [find?_append_none_right]
    simp [List.find?, hstub]
  | some s =>
    have hk : sessionKeyIs c d s = true := List.find?_some hfound
    simp only [sessionKeyIs, Bool.and_eq_true, beq_iff_eq] at hk
    have hx : sessionKeyIs c' d' { s with summaryPosted := true } = false := by
      cases h' : sessionKeyIs c' d' { s with summaryPosted := true } with
      | false => rfl
      | true =>
        simp only [sessionKeyIs, Bool.and_eq_true, beq_iff_eq] at h'
        exact absurd ⟨h'.1.symm.trans hk.1, h'.2.symm.trans hk.2⟩ hne
    simp only [markSummaryPosted, getSessionOpt, hfound]
    exact find?_upsert_other _ _ _ _ hx hdisj

theorem mark_preserves_rest (st : StoreState) (c d : String) :
    (markSummaryPosted st c d).configs = st.configs ∧
    (markSummaryPosted st c d).responses = st.responses ∧
    (markSummaryPosted st c d).reminders = st.reminders := by
  cases h : st.sessions.find? (sessionKeyIs c d) <;>
    simp [markSummaryPosted, getSessionOpt, h]

theorem getSessionOpt_update_self (st : StoreState) (c d status : String)
    (now : Nat) (s : Session) (h : getSessionOpt st c d = some s) :
    getSessionOpt (updateSessionStatus st c d status now) c d =
      some { s with status := status,
                    completedAt :=
                      if status == sessionCompleted then some now
                      else s.completedAt } := by
  have h' : st.sessions.find? (sessionKeyIs c d) = some s := h
  have hk : sessionKeyIs c d s = true := List.find?_some h'
  have hk' : sessionKeyIs c d
      { s with status := status,
               completedAt :=
                 if status == sessionCompleted then some now
                 else s.completedAt } = true := by
    simpa [sessionKeyIs] using hk
  simp only [updateSessionStatus, getSessionOpt, h']
  exact find?_upsert_self _ _ _ hk'

theorem update_preserves_rest (st : StoreState) (c d status : String) (now : Nat) :
    (updateSessionStatus st c d status now).configs = st.configs ∧
    (updateSessionStatus st c d status now).responses = st.responses ∧
    (updateSessionStatus st c d status now).reminders = st.reminders := by
  cases h : st.sessions.find? (sessionKeyIs c d) <;>
    simp [updateSessionStatus, getSessionOpt, h]

theorem getSessionOpt_update_frame (st : StoreState) (c d status : String)
    (now : Nat) (c' d' : String) (hne : ¬(c' = c ∧ d' = d)) :
    getSessionOpt (updateSessionStatus st c d status now) c' d' =
      getSessionOpt st c' d' := by
  have hdisj := sessionKeyIs_disjoint c d c' d' hne
  cases hfound : st.sessions.find? (sessionKeyIs c d) with
  | none =>
    have hstub : sessionKeyIs c' d'
        { sessionID := "", channelID := c, date := d, status := status,
          summaryPosted := false, createdAt := 0,
          completedAt := if status == sessionCompleted then some now else none } =
        false := by
      cases h' : sessionKeyIs c' d'
          { sessionID := "", channelID := c, date := d, status := status,
            summaryPosted := false, createdAt := 0,
            completedAt := if status == sessionCompleted then some now else none } with
      | false => rfl
      | true =>
        have := hdisj _ h'
        simp [sessionKeyIs] at this
    simp only [updateSessionStatus, getSessionOpt, hfound]
    refine find?_append_none_right _ _ _ (List.find?_eq_none.mpr ?_)
    intro x hx
    rw [List.mem_singleton] at hx
    subst hx
    rw [hstub]
    simp
  | some s =>
    have hk : sessionKeyIs c d s = true := List.find?_some hfound
    simp only [sessionKeyIs, Bool.and_eq_true, beq_iff_eq] at hk
    have hx : sessionKeyIs c' d'
        { s with status := status,
                 completedAt :=
                   if status == sessionCompleted then some now
                   else s.completedAt } = false := by
      cases h' : sessionKeyIs c' d'
          { s with status := status,
                   completedAt :=
                     if status == sessionCompleted then some now
                     else s.completedAt } with
      | false => rfl
      | true =>
        simp only [sessionKeyIs, Bool.and_eq_true, beq_iff_eq] at h'
        exact absurd ⟨h'.1.symm.trans hk.1, h'.2.symm.trans hk.2⟩ hne
    simp only [updateSessionStatus, getSessionOpt, hfound]
    exact find?_upsert_other _ _ _ _ hx hdisj

/-! ### Helper lemmas about responses and reminders -/

theorem getUserResponseOpt_save_self (st : StoreState) (r : UserResponse) :
    getUserResponseOpt (saveUserResponse st r) r.channelID r.date r.userID =
      some r := by
  have hk : respKeyIs r.channelID r.date r.userID
      { kChannel := r.channelID, kDate := r.date, kUser := r.userID, val := r } =
      true := by
    simp [respKeyIs]
  simp only [saveUserResponse, getUserResponseOpt]
  rw [find?_upsert_self _ _ _ hk]
  rfl

theorem respKeyIs_disjoint (c d u c' d' u' : String)
    (hne : ¬(c' = c ∧ d' = d ∧ u' = u)) :
    ∀ a : RespItem, respKeyIs c' d' u' a = true → respKeyIs c d u a = false := by
  intro a ha
  simp only [respKeyIs, Bool.and_eq_true, beq_iff_eq] at ha
  cases hres : respKeyIs c d u a with
  | false => rfl
  | true =>
    simp only [respKeyIs, Bool.and_eq_true, beq_iff_eq] at hres
    exact absurd ⟨ha.1.1.symm.trans hres.1.1, ha.1.2.symm.trans hres.1.2,
      ha.2.symm.trans hres.2⟩ hne

theorem getUserResponseOpt_save_other (st : StoreState) (r : UserResponse)
    (c d u : String) (hne : ¬(c = r.channelID ∧ d = r.date ∧ u = r.userID)) :
    getUserResponseOpt (saveUserResponse st r) c d u =
      getUserResponseOpt st c d u := by
  have hdisj := respKeyIs_disjoint r.channelID r.date r.userID c d u hne
  have hx : respKeyIs c d u
      { kChannel := r.channelID, kDate := r.date, kUser := r.userID, val := r } =
      false := by
    cases h' : respKeyIs c d u
        { kChannel := r.channelID, kDate := r.date, kUser := r.userID, val := r } with
    | false => rfl
    | true =>
      have := hdisj _ h'
      simp [respKeyIs] at this
  simp only [saveUserResponse, getUserResponseOpt]
  rw [find?_upsert_other _ _ _ _ hx hdisj]

theorem save_preserves_rest (st : StoreState) (r : UserResponse) :
    (saveUserResponse st r).configs = st.configs ∧
    (saveUserResponse st r).sessions = st.sessions ∧
    (saveUserResponse st r).reminders = st.reminders := by
  simp [saveUserResponse]

theorem incr_preserves_rest (st : StoreState) (c d u : String) :
    (incrementReminderCount st c d u).configs = st.configs ∧
    (incrementReminderCount st c d u).sessions = st.sessions ∧
    (incrementReminderCount st c d u).reminders = st.reminders := by
  cases h : st.responses.find? (respKeyIs c d u) <;>
    simp [incrementReminderCount, h]

theorem saveReminder_preserves_rest (st : StoreState) (r : Reminder) :
    (saveReminder st r).configs = st.configs ∧
    (saveReminder st r).sessions = st.sessions ∧
    (saveReminder st r).responses = st.responses := by
  simp [saveReminder]

theorem hasReminderFor_saveReminder_self (st : StoreState) (r : Reminder) :
    hasReminderFor (saveReminder st r) r.channelID r.date r.userID r.time := by
  refine ⟨r, ?_, rfl, rfl, rfl, rfl⟩
  simp [saveReminder, upsert]

theorem hasReminderFor_saveReminder_mono (st : StoreState) (r : Reminder)
    (c d u t : String) (h : hasReminderFor st c d u t) :
    hasReminderFor (saveReminder st r) c d u t := by
  obtain ⟨r0, hmem, hc, hd, hu, ht⟩ := h
  by_cases hkey : reminderKeyIs r.channelID r.date r.userID r.time r0 = true
  · -- the old witness has the new record's key, so the new record serves
    simp only [reminderKeyIs, Bool.and_eq_true, beq_iff_eq] at hkey
    refine ⟨r, ?_, ?_, ?_, ?_, ?_⟩
    · simp [saveReminder, upsert]
    · rw [← hc, hkey.1.1.1]
    · rw [← hd, hkey.1.1.2]
    · rw [← hu, hkey.1.2]
    · rw [← ht, hkey.2]
  · refine ⟨r0, ?_, hc, hd, hu, ht⟩
    simp only [saveReminder, upsert]
    refine List.mem_append_left _ ?_
    rw [List.mem_filter]
    exact ⟨hmem, by simp [hkey]⟩

theorem hasReminderFor_incr (st : StoreState) (c0 d0 u0 c d u t : String) :
    hasReminderFor (incrementReminderCount st c0 d0 u0) c d u t ↔
      hasReminderFor st c d u t := by
  have : (incrementReminderCount st c0 d0 u0).reminders = st.reminders :=
    (incr_preserves_rest st c0 d0 u0).2.2
  rw [hasReminderFor, this, hasReminderFor]

/-! ### Helper lemmas about the summary path -/

theorem postDailySummary_already (cfg : BotConfig) (env : SlackEnv)
    (clock : Clock) (w : World) (channelID : String) (s : Session)
    (h : getSessionOpt w.store channelID clock.serverDate = some s)
    (hp : s.summaryPosted = true) :
    postDailySummary cfg env clock w channelID = (Except.ok (), w) := by
  simp [postDailySummary, h, hp]

theorem processDailySummary_already (cfg : BotConfig) (env : SlackEnv)
    (clock : Clock) (w : World) (config : ChannelConfig) (s : Session)
    (h : getSessionOpt w.store config.channelID clock.serverDate = some s)
    (hp : s.summaryPosted = true) :
    processDailySummary cfg env clock w config = (Except.ok (), w) := by
  have hpost := postDailySummary_already cfg env clock w config.channelID s h hp
  unfold processDailySummary
  cases hdue : isTimeMatch (clock.localTime config.schedule.timezone)
      config.schedule.summaryTime with
  | false => simp [hdue]
  | true =>
    simp only [hdue, if_true]
    cases hloc : getSessionOpt w.store config.channelID
        (clock.localDate config.schedule.timezone) with
    | none => exact hpost
    | some sl =>
      cases hsl : sl.summaryPosted with
      | false => simp only [hsl, Bool.not_false, if_true]; exact hpost
      | true => simp [hsl]

theorem postDailySummary_posts (cfg : BotConfig) (env : SlackEnv)
    (clock : Clock) (w : World) (channelID ts : String) (bch : BotChannel)
    (hok : env.postMessage channelID = Except.ok ts)
    (hch : channelByID cfg channelID = some bch)
    (hflag : ∀ s : Session,
      getSessionOpt w.store channelID clock.serverDate = some s →
      s.summaryPosted = false) :
    ∃ w2 : World,
      postDailySummary cfg env clock w channelID = (Except.ok (), w2) ∧
      w2.calls = w.calls ++ [ExtCall.postMessage channelID] ∧
      (∃ s2 : Session,
        getSessionOpt w2.store channelID clock.serverDate = some s2 ∧
        s2.summaryPosted = true ∧ s2.status = sessionCompleted) ∧
      (∀ c' d' : String, ¬(c' = channelID ∧ d' = clock.serverDate) →
        getSessionOpt w2.store c' d' = getSessionOpt w.store c' d') ∧
      w2.store.configs = w.store.configs ∧
      w2.store.responses = w.store.responses ∧
      w2.store.reminders = w.store.reminders := by
  cases hsess : getSessionOpt w.store channelID clock.serverDate with
  | some s =>
    have hsp : s.summaryPosted = false := hflag s hsess
    have hmark := getSessionOpt_mark_self w.store channelID clock.serverDate s hsess
    have hupd := getSessionOpt_update_self
      (markSummaryPosted w.store channelID clock.serverDate) channelID
      clock.serverDate sessionCompleted clock.stamp _ hmark
    set st2 : StoreState := updateSessionStatus
      (markSummaryPosted w.store channelID clock.serverDate)
      channelID clock.serverDate sessionCompleted clock.stamp with hst2
    refine ⟨⟨st2, w.uuidSeed, w.calls ++ [ExtCall.postMessage channelID]⟩,
      ?_, rfl, ⟨_, hupd, rfl, rfl⟩, ?_, ?_, ?_, ?_⟩
    · simp [postDailySummary, hsess, hsp, hch, callPostMessage, hok, hst2]
    · intro c' d' hne
      rw [hst2, getSessionOpt_update_frame _ _ _ _ _ _ _ hne,
        getSessionOpt_mark_frame _ _ _ _ _ hne]
    · rw [hst2, (update_preserves_rest _ _ _ _ _).1, (mark_preserves_rest _ _ _).1]
    · rw [hst2, (update_preserves_rest _ _ _ _ _).2.1, (mark_preserves_rest _ _ _).2.1]
    · rw [hst2, (update_preserves_rest _ _ _ _ _).2.2, (mark_preserves_rest _ _ _).2.2]
  | none =>
    -- the session is created lazily, then posted and marked
    set newSession : Session :=
      { sessionID := uuidString w.uuidSeed, channelID := channelID,
        date := clock.serverDate, status := sessionPending,
        summaryPosted := false, createdAt := clock.stamp,
        completedAt := none } with hnewdef
    set stC : StoreState :=
      { w.store with sessions := w.store.sessions ++ [newSession] } with hstC
    have hkey : sessionKeyIs channelID clock.serverDate newSession = true := by
      simp [sessionKeyIs, hnewdef]
    have hgetC : getSessionOpt stC channelID clock.serverDate = some newSession := by
      rw [hstC]
      show (w.store.sessions ++ [newSession]).find?
        (sessionKeyIs channelID clock.serverDate) = some newSession
      rw [find?_append_of_none _ _ _ hsess]
      simp [List.find?, hkey]
    have hmark := getSessionOpt_mark_self stC channelID clock.serverDate
      newSession hgetC
    have hupd := getSessionOpt_update_self
      (markSummaryPosted stC channelID clock.serverDate) channelID
      clock.serverDate sessionCompleted clock.stamp _ hmark
    set st2 : StoreState := updateSessionStatus
      (markSummaryPosted stC channelID clock.serverDate)
      channelID clock.serverDate sessionCompleted clock.stamp with hst2
    refine ⟨⟨st2, w.uuidSeed + 1, w.calls ++ [ExtCall.postMessage channelID]⟩,
      ?_, rfl, ⟨_, hupd, rfl, rfl⟩, ?_, ?_, ?_, ?_⟩
    · have hsess' : List.find? (sessionKeyIs channelID clock.serverDate)
          w.store.sessions = none := hsess
      simp [postDailySummary, hsess', startStandupSession, createOrRecover,
        createSession, getSessionOpt, hch, callPostMessage, hok, hstC, hnewdef,
        hst2]
    · intro c' d' hne
      rw [hst2, getSessionOpt_update_frame _ _ _ _ _ _ _ hne,
        getSessionOpt_mark_frame _ _ _ _ _ hne]
      have hsingle : sessionKeyIs c' d' newSession = false := by
        have := sessionKeyIs_disjoint channelID clock.serverDate c' d' hne
          newSession
        cases h' : sessionKeyIs c' d' newSession with
        | false => rfl
        | true => rw [this h'] at hkey; exact hkey.symm ▸ rfl
      rw [hstC]
      show (w.store.sessions ++ [newSession]).find? (sessionKeyIs c' d') =
        w.store.sessions.find? (sessionKeyIs c' d')
      refine find?_append_none_right _ _ _ ?_
      simp [List.find?, hsingle]
    · rw [hst2, (update_preserves_rest _ _ _ _ _).1, (mark_preserves_rest _ _ _).1,
        hstC]
    · rw [hst2, (update_preserves_rest _ _ _ _ _).2.1,
        (mark_preserves_rest _ _ _).2.1, hstC]
    · rw [hst2, (update_preserves_rest _ _ _ _ _).2.2,
        (mark_preserves_rest _ _ _).2.2, hstC]

theorem processDailySummary_posts_when_due (cfg : BotConfig) (env : SlackEnv)
    (clock : Clock) (wx : World) (config : ChannelConfig) (ts : String)
    (bch : BotChannel)
    (hok : env.postMessage config.channelID = Except.ok ts)
    (hch : channelByID cfg config.channelID = some bch)
    (hdue : isTimeMatch (clock.localTime config.schedule.timezone)
      config.schedule.summaryTime = true)
    (hflagL : ∀ s : Session, getSessionOpt wx.store config.channelID
      (clock.localDate config.schedule.timezone) = some s →
      s.summaryPosted = false)
    (hflagS : ∀ s : Session,
      getSessionOpt wx.store config.channelID clock.serverDate = some s →
      s.summaryPosted = false) :
    ∃ w2 : World,
      processDailySummary cfg env clock wx config = (Except.ok (), w2) ∧
      w2.calls = wx.calls ++ [ExtCall.postMessage config.channelID] ∧
      (∃ s2 : Session,
        getSessionOpt w2.store config.channelID clock.serverDate = some s2 ∧
        s2.summaryPosted = true ∧ s2.status = sessionCompleted) ∧
      (∀ c' d' : String, ¬(c' = config.channelID ∧ d' = clock.serverDate) →
        getSessionOpt w2.store c' d' = getSessionOpt wx.store c' d') ∧
      w2.store.configs = wx.store.configs ∧
      w2.store.responses = wx.store.responses ∧
      w2.store.reminders = wx.store.reminders := by
  obtain ⟨w2, hrun, hcalls, hsess2, hframe, hcfgs, hresp, hrem⟩ :=
    postDailySummary_posts cfg env clock wx config.channelID ts bch hok hch
      hflagS
  refine ⟨w2, ?_, hcalls, hsess2, hframe, hcfgs, hresp, hrem⟩
  unfold processDailySummary
  simp only [hdue, if_true]
  cases hloc : getSessionOpt wx.store config.channelID
      (clock.localDate config.schedule.timezone) with
  | none => exact hrun
  | some sl =>
    have hslp := hflagL sl hloc
    simp only [hslp, Bool.not_false, if_true]
    exact hrun

theorem processReminders_no_times (cfg : BotConfig) (env : SlackEnv)
    (clock : Clock) (w : World) (config : ChannelConfig)
    (h : config.schedule.reminderTimes = []) :
    processReminders cfg env clock w config = (Except.ok (), w) := by
  simp [processReminders, h, processRemindersLoop]

/-! ### Claim C4: time-window matching -/

/-- C4: for all strings, `isTimeMatch` returns `true` iff both parse as
HH:MM and the difference `current - scheduled` lies in `[0,1)` minutes; in
particular 08:30 matches 08:30, 08:31 and 08:29 do not match 08:30, and a
malformed time on either side yields `false` (fail closed). -/
theorem isTimeMatch_characterization :
    (∀ c s : String, isTimeMatch c s = true ↔
      ∃ cm sm : Nat, parseHHMM c = some cm ∧ parseHHMM s = some sm ∧
        0 ≤ (cm : Int) - (sm : Int) ∧ (cm : Int) - (sm : Int) < 1) ∧
    isTimeMatch "08:30" "08:30" = true ∧
    isTimeMatch "08:31" "08:30" = false ∧
    isTimeMatch "08:29" "08:30" = false ∧
    (∀ c s : String, (parseHHMM c = none ∨ parseHHMM s = none) →
      isTimeMatch c s = false) := by
  refine ⟨?_, by decide, by decide, by decide, ?_⟩
  · intro c s
    cases hc : parseHHMM c with
    | none =>
      simp only [isTimeMatch, hc]
      constructor
      · intro h; cases h
      · rintro ⟨cm, sm, hc', _, _, _⟩; cases hc'
    | some cm =>
      cases hs : parseHHMM s with
      | none =>
        simp only [isTimeMatch, hc, hs]
        constructor
        · intro h; cases h
        · rintro ⟨cm', sm, _, hs', _, _⟩; cases hs'
      | some sm =>
        simp only [isTimeMatch, hc, hs, decide_eq_true_eq]
        constructor
        · intro h; exact ⟨cm, sm, rfl, rfl, h.1, h.2⟩
        · rintro ⟨cm', sm', hc', hs', h1, h2⟩
          cases hc'; cases hs'; exact ⟨h1, h2⟩
  · intro c s h
    cases h with
    | inl h => simp [isTimeMatch, h]
    | inr h =>
      cases hc : parseHHMM c with
      | none => simp [isTimeMatch, hc]
      | some cm => simp [isTimeMatch, hc, h]

/-- C4 witness: the fail-closed clause applied to the malformed time
"08:60". -/
theorem isTimeMatch_characterization_witness :
    (parseHHMM "08:60" = none ∨ parseHHMM "08:30" = none) ∧
    isTimeMatch "08:60" "08:30" = false :=
  ⟨Or.inl (by decide),
    isTimeMatch_characterization.2.2.2.2 "08:60" "08:30" (Or.inl (by decide))⟩

/-! ### Claim C9: unrecognised active-day names silently disable a channel -/

/-- C9: `dayMap` recognises only the exact three-letter names; a channel
config whose `ActiveDays` all fall outside that set has `isActiveDay` false
at every instant, so one whole tick over such a channel does nothing at all
and returns success. -/
theorem unrecognised_activeDays_never_fire (days : List String)
    (hd : ∀ d ∈ days, dayMap d = none) :
    (∀ config : ChannelConfig, config.schedule.activeDays = days →
      ∀ clock : Clock, isActiveDay config clock = false) ∧
    (∀ (cfg : BotConfig) (env : SlackEnv) (clock : Clock) (w : World)
       (config : ChannelConfig), config.schedule.activeDays = days →
      processScheduledTasks cfg env clock (Except.ok [config]) w =
        (Except.ok (), w)) := by
  have h1 : ∀ config : ChannelConfig, config.schedule.activeDays = days →
      ∀ clock : Clock, isActiveDay config clock = false := by
    intro config hdays clock
    unfold isActiveDay
    rw [hdays]
    rw [List.any_eq_false]
    intro d hdm
    rw [hd d hdm]
    simp
  refine ⟨h1, ?_⟩
  intro cfg env clock w config hdays
  simp [processScheduledTasks, processChannels, h1 config hdays clock]

/-- C9 witness: the fully-spelled day names "Monday" and "mon" are not in
`dayMap`, and a channel configured with them is inactive at the demo
instant. -/
theorem unrecognised_activeDays_never_fire_witness :
    (∀ d ∈ ["Monday", "mon"], dayMap d = none) ∧
    isActiveDay badDaysConfig demoClock = false :=
  ⟨by decide,
    (unrecognised_activeDays_never_fire ["Monday", "mon"] (by decide)).1
      badDaysConfig rfl demoClock⟩

/-! ### Claim C5: missing participants are the literal set difference -/

theorem respondents_ignore_sessionIDs (g : String → String) (l : List RespItem)
    (c d u : String) :
    (((l.map (fun it =>
        { it with val := { it.val with sessionID := g it.val.sessionID } })).filter
          (fun it => it.kChannel == c && it.kDate == d)).map RespItem.val).any
        (fun r => r.userID == u) =
      ((l.filter (fun it => it.kChannel == c && it.kDate == d)).map
          RespItem.val).any (fun r => r.userID == u) := by
  induction l with
  | nil => rfl
  | cons a t ih =>
    by_cases h : (a.kChannel == c && a.kDate == d) = true
    · simp only [List.map_cons, List.filter, h, List.any_cons, ih]
    · simp only [Bool.not_eq_true] at h
      simp only [List.map_cons, List.filter, h, ih]

/-- C5: `GetUsersWithoutResponse` returns exactly the roster minus the
participants having a stored response under (channel, date): membership in
the result is membership in the roster without a recorded response; the
result ignores the session identifiers the responses carry; and the
concrete roster {A,B,C} walks from {B,C} to {C} to the empty set as A, B
and C respond. -/
theorem getUsersWithoutResponse_set_difference :
    (∀ (st : StoreState) (c d : String) (roster : List String) (u : String),
      u ∈ getUsersWithoutResponse st c d roster ↔
        u ∈ roster ∧ ¬∃ r ∈ listUserResponses st c d, r.userID = u) ∧
    (∀ (g : String → String) (st : StoreState) (c d : String)
       (roster : List String),
      getUsersWithoutResponse (mapSessionIDs g st) c d roster =
        getUsersWithoutResponse st c d roster) ∧
    getUsersWithoutResponse storeRespA "C1" "2025-01-06" ["A", "B", "C"] =
      ["B", "C"] ∧
    getUsersWithoutResponse storeRespAB "C1" "2025-01-06" ["A", "B", "C"] =
      ["C"] ∧
    getUsersWithoutResponse storeRespABC "C1" "2025-01-06" ["A", "B", "C"] =
      [] := by
  refine ⟨?_, ?_, by decide, by decide, by decide⟩
  · intro st c d roster u
    simp [getUsersWithoutResponse, List.mem_filter, List.any_eq_true]
  · intro g st c d roster
    unfold getUsersWithoutResponse listUserResponses mapSessionIDs
    refine List.filter_congr ?_
    intro u _
    rw [respondents_ignore_sessionIDs]

/-! ### Claim C10: resubmission overwrites and resets the reminder count -/

/-- C10: `SubmitStandupResponse` always saves a record with
`ReminderCount = 0`, and `SaveUserResponse` overwrites the whole
(channel, date, participant) item unconditionally, so after any submission
the stored item is exactly the freshly built record (previous reminder
count gone) while every other item, session and reminder is untouched. -/
theorem submitStandupResponse_resets_reminder_count
    (cfg : BotConfig) (env : SlackEnv) (clock : Clock) (w : World)
    (sub : Submission) :
    ∃ w1 : World,
      submitStandupResponse cfg env clock w sub = (Except.ok (), w1) ∧
      getUserResponseOpt w1.store sub.channelID sub.date sub.userID =
        some { sessionID := sub.sessionID, channelID := sub.channelID,
               date := sub.date, userID := sub.userID,
               userName := sub.userName, responses := sub.responses,
               submittedAt := clock.stamp, reminderCount := 0 } ∧
      (∀ c d u : String, ¬(c = sub.channelID ∧ d = sub.date ∧ u = sub.userID) →
        getUserResponseOpt w1.store c d u = getUserResponseOpt w.store c d u) ∧
      w1.store.sessions = w.store.sessions ∧
      w1.store.reminders = w.store.reminders := by
  set response : UserResponse :=
    { sessionID := sub.sessionID, channelID := sub.channelID, date := sub.date,
      userID := sub.userID, userName := sub.userName,
      responses := sub.responses, submittedAt := clock.stamp,
      reminderCount := 0 } with hresp
  have hmain : ∀ wx : World, wx.store = saveUserResponse w.store response →
      getUserResponseOpt wx.store sub.channelID sub.date sub.userID =
        some response ∧
      (∀ c d u : String, ¬(c = sub.channelID ∧ d = sub.date ∧ u = sub.userID) →
        getUserResponseOpt wx.store c d u = getUserResponseOpt w.store c d u) ∧
      wx.store.sessions = w.store.sessions ∧
      wx.store.reminders = w.store.reminders := by
    intro wx hx
    rw [hx]
    exact ⟨getUserResponseOpt_save_self w.store response,
      fun c d u hne => getUserResponseOpt_save_other w.store response c d u hne,
      (save_preserves_rest w.store response).2.1,
      (save_preserves_rest w.store response).2.2⟩
  cases ht : cfg.threadingEnabled with
  | false =>
    refine ⟨⟨saveUserResponse w.store response, w.uuidSeed, w.calls⟩, ?_, ?_⟩
    · simp [submitStandupResponse, ht, hresp]
    · exact hmain _ rfl
  | true =>
    cases hch : channelByID cfg sub.channelID with
    | none =>
      refine ⟨⟨saveUserResponse w.store response, w.uuidSeed, w.calls⟩, ?_, ?_⟩
      · simp [submitStandupResponse, ht, hresp, postResponseToChannel, hch]
      · exact hmain _ rfl
    | some bch =>
      cases hpm : env.postMessage sub.channelID with
      | error e =>
        refine ⟨⟨saveUserResponse w.store response, w.uuidSeed,
          w.calls ++ [ExtCall.postMessage sub.channelID]⟩, ?_, ?_⟩
        · simp [submitStandupResponse, ht, hresp, postResponseToChannel, hch,
            callPostMessage, hpm]
        · exact hmain _ rfl
      | ok ts =>
        refine ⟨⟨saveUserResponse w.store response, w.uuidSeed,
          w.calls ++ [ExtCall.postMessage sub.channelID]⟩, ?_, ?_⟩
        · simp [submitStandupResponse, ht, hresp, postResponseToChannel, hch,
            callPostMessage, hpm]
        · exact hmain _ rfl

/-- C10 witness: resubmitting over a stored response that carries seven
reminders resets the stored reminder count to zero. -/
theorem submitStandupResponse_resets_reminder_count_witness :
    ∃ w1 : World,
      submitStandupResponse demoBotCfg demoEnv demoClock demoWorldReminded
          demoSubmission = (Except.ok (), w1) ∧
      getUserResponseOpt w1.store demoSubmission.channelID demoSubmission.date
          demoSubmission.userID =
        some { sessionID := demoSubmission.sessionID,
               channelID := demoSubmission.channelID,
               date := demoSubmission.date, userID := demoSubmission.userID,
               userName := demoSubmission.userName,
               responses := demoSubmission.responses,
               submittedAt := demoClock.stamp, reminderCount := 0 } ∧
      (∀ c d u : String,
        ¬(c = demoSubmission.channelID ∧ d = demoSubmission.date ∧
            u = demoSubmission.userID) →
        getUserResponseOpt w1.store c d u =
          getUserResponseOpt demoWorldReminded.store c d u) ∧
      w1.store.sessions = demoWorldReminded.store.sessions ∧
      w1.store.reminders = demoWorldReminded.store.reminders :=
  submitStandupResponse_resets_reminder_count demoBotCfg demoEnv demoClock
    demoWorldReminded demoSubmission

/-! ### Claim C3: idempotent session creation -/

/-- C3: from a state with no session for (channel, server-local today),
`StartStandupSession` creates exactly one session record with a stable
generated identifier; every further sequential call returns that same
session without error and without changing anything; the conditional create
fails with `ErrAlreadyExists` instead of overwriting once a session exists;
and the `ErrAlreadyExists` fallback path of a racing caller returns the
existing session unchanged. -/
theorem startStandupSession_idempotent (clock : Clock) (w : World) (c : String)
    (hnone : getSessionOpt w.store c clock.serverDate = none) :
    ∃ (s : Session) (w1 : World),
      startStandupSession clock w c = (Except.ok s, w1) ∧
      s.sessionID = uuidString w.uuidSeed ∧
      s.channelID = c ∧ s.date = clock.serverDate ∧
      getSessionOpt w1.store c clock.serverDate = some s ∧
      w1.store.sessions.filter (sessionKeyIs c clock.serverDate) = [s] ∧
      (∀ n : Nat, startIter clock c n w1 = w1) ∧
      startStandupSession clock w1 c = (Except.ok s, w1) ∧
      (∀ s2 : Session, s2.channelID = c → s2.date = clock.serverDate →
        createSession w1.store s2 = Except.error StoreErr.alreadyExists) ∧
      (∀ (w2 : World) (sB : Session), sB.channelID = c →
        sB.date = clock.serverDate →
        getSessionOpt w2.store c clock.serverDate = some s →
        createOrRecover clock w2 c sB = (Except.ok s, w2)) := by
  have hnone' : List.find? (sessionKeyIs c clock.serverDate) w.store.sessions =
      none := hnone
  set newSession : Session :=
    { sessionID := uuidString w.uuidSeed, channelID := c,
      date := clock.serverDate, status := sessionPending,
      summaryPosted := false, createdAt := clock.stamp,
      completedAt := none } with hnew
  have hkey : sessionKeyIs c clock.serverDate newSession = true := by
    simp [sessionKeyIs, hnew]
  set w1 : World :=
    ⟨{ w.store with sessions := w.store.sessions ++ [newSession] },
      w.uuidSeed + 1, w.calls⟩ with hw1
  have hget1 : getSessionOpt w1.store c clock.serverDate = some newSession := by
    rw [hw1]
    show (w.store.sessions ++ [newSession]).find?
      (sessionKeyIs c clock.serverDate) = some newSession
    rw [find?_append_of_none _ _ _ hnone']
    simp [List.find?, hkey]
  have heval : startStandupSession clock w c = (Except.ok newSession, w1) := by
    simp [startStandupSession, createOrRecover, createSession, getSessionOpt,
      hnone', hnew, hw1]
  have hfix : startStandupSession clock w1 c = (Except.ok newSession, w1) := by
    simp [startStandupSession, hget1]
  refine ⟨newSession, w1, heval, rfl, rfl, rfl, hget1, ?_, ?_, hfix, ?_, ?_⟩
  · rw [hw1]
    show (w.store.sessions ++ [newSession]).filter
      (sessionKeyIs c clock.serverDate) = [newSession]
    rw [List.filter_append,
      List.filter_eq_nil_iff.mpr (fun a ha => by
        have := List.find?_eq_none.mp hnone' a ha
        simpa using this)]
    simp [hkey]
  · intro n
    induction n with
    | zero => rfl
    | succ k ih =>
      show startIter clock c k (startStandupSession clock w1 c).2 = w1
      rw [hfix]
      exact ih
  · intro s2 h2c h2d
    have : getSessionOpt w1.store s2.channelID s2.date = some newSession := by
      rw [h2c, h2d]; exact hget1
    simp [createSession, this]
  · intro w2 sB hbc hbd hs
    have hB : getSessionOpt w2.store sB.channelID sB.date = some newSession := by
      rw [hbc, hbd]; exact hs
    simp [createOrRecover, createSession, hB, hs]

/-- C3 witness: the theorem applied to the demo world, whose store has no
session yet for channel C1 on the demo server date. -/
theorem startStandupSession_idempotent_witness :
    getSessionOpt demoWorld.store "C1" demoClock.serverDate = none ∧
    ∃ (s : Session) (w1 : World),
      startStandupSession demoClock demoWorld "C1" = (Except.ok s, w1) ∧
      s.sessionID = uuidString demoWorld.uuidSeed ∧
      s.channelID = "C1" ∧ s.date = demoClock.serverDate ∧
      getSessionOpt w1.store "C1" demoClock.serverDate = some s ∧
      w1.store.sessions.filter (sessionKeyIs "C1" demoClock.serverDate) = [s] ∧
      (∀ n : Nat, startIter demoClock "C1" n w1 = w1) ∧
      startStandupSession demoClock w1 "C1" = (Except.ok s, w1) ∧
      (∀ s2 : Session, s2.channelID = "C1" → s2.date = demoClock.serverDate →
        createSession w1.store s2 = Except.error StoreErr.alreadyExists) ∧
      (∀ (w2 : World) (sB : Session), sB.channelID = "C1" →
        sB.date = demoClock.serverDate →
        getSessionOpt w2.store "C1" demoClock.serverDate = some s →
        createOrRecover demoClock w2 "C1" sB = (Except.ok s, w2)) :=
  ⟨by decide, startStandupSession_idempotent demoClock demoWorld "C1" (by decide)⟩

/-! ### Claim C6: summary-post atomicity on failure -/

/-- C6: when the external post fails, `PostDailySummary` returns an error
having made exactly the one post attempt; `MarkSummaryPosted` and
`UpdateSessionStatus` are not reached, so responses, reminders and configs
are untouched, the sessions either unchanged or extended only by the lazily
created pending unposted session, and the flag for (channel, server-local
today) is still unset — so a later due tick with a healthy notifier retries
the post and then sets the flag. -/
theorem postDailySummary_failure_leaves_flag_unset
    (cfg : BotConfig) (env : SlackEnv) (clock : Clock) (w : World)
    (channelID err : String) (bch : BotChannel)
    (hfail : env.postMessage channelID = Except.error err)
    (hch : channelByID cfg channelID = some bch)
    (hflag : ∀ s : Session,
      getSessionOpt w.store channelID clock.serverDate = some s →
      s.summaryPosted = false) :
    ∃ w1 : World,
      postDailySummary cfg env clock w channelID =
        (Except.error "failed to post summary", w1) ∧
      w1.calls = w.calls ++ [ExtCall.postMessage channelID] ∧
      (∀ s : Session,
        getSessionOpt w1.store channelID clock.serverDate = some s →
        s.summaryPosted = false) ∧
      w1.store.responses = w.store.responses ∧
      w1.store.reminders = w.store.reminders ∧
      w1.store.configs = w.store.configs ∧
      (w1.store.sessions = w.store.sessions ∨
        ∃ snew : Session, snew.summaryPosted = false ∧
          snew.status = sessionPending ∧ snew.channelID = channelID ∧
          snew.date = clock.serverDate ∧
          w1.store.sessions = w.store.sessions ++ [snew]) ∧
      (∀ (config : ChannelConfig) (env2 : SlackEnv) (ts : String),
        config.channelID = channelID →
        env2.postMessage channelID = Except.ok ts →
        isTimeMatch (clock.localTime config.schedule.timezone)
          config.schedule.summaryTime = true →
        clock.localDate config.schedule.timezone = clock.serverDate →
        ∃ w2 : World,
          processDailySummary cfg env2 clock w1 config = (Except.ok (), w2) ∧
          w2.calls = w1.calls ++ [ExtCall.postMessage channelID] ∧
          ∃ s2 : Session,
            getSessionOpt w2.store channelID clock.serverDate = some s2 ∧
            s2.summaryPosted = true) := by
  have hretry : ∀ wx : World,
      (∀ s : Session, getSessionOpt wx.store channelID clock.serverDate =
        some s → s.summaryPosted = false) →
      ∀ (config : ChannelConfig) (env2 : SlackEnv) (ts : String),
        config.channelID = channelID →
        env2.postMessage channelID = Except.ok ts →
        isTimeMatch (clock.localTime config.schedule.timezone)
          config.schedule.summaryTime = true →
        clock.localDate config.schedule.timezone = clock.serverDate →
        ∃ w2 : World,
          processDailySummary cfg env2 clock wx config = (Except.ok (), w2) ∧
          w2.calls = wx.calls ++ [ExtCall.postMessage channelID] ∧
          ∃ s2 : Session,
            getSessionOpt w2.store channelID clock.serverDate = some s2 ∧
            s2.summaryPosted = true := by
    intro wx hfx config env2 ts hcid hok2 hdue hloc
    have hok2' : env2.postMessage config.channelID = Except.ok ts := by
      rw [hcid]; exact hok2
    have hch' : channelByID cfg config.channelID = some bch := by
      rw [hcid]; exact hch
    have hfxS : ∀ s : Session,
        getSessionOpt wx.store config.channelID clock.serverDate = some s →
        s.summaryPosted = false := by
      rw [hcid]; exact hfx
    have hfxL : ∀ s : Session, getSessionOpt wx.store config.channelID
        (clock.localDate config.schedule.timezone) = some s →
        s.summaryPosted = false := by
      rw [hloc, hcid]; exact hfx
    obtain ⟨w2, hrun, hcalls, ⟨s2, hs2, hs2p, _⟩, _, _, _, _⟩ :=
      processDailySummary_posts_when_due cfg env2 clock wx config ts bch
        hok2' hch' hdue hfxL hfxS
    rw [hcid] at hcalls hs2
    exact ⟨w2, hrun, hcalls, s2, hs2, hs2p⟩
  cases hsess : getSessionOpt w.store channelID clock.serverDate with
  | some s =>
    have hsp : s.summaryPosted = false := hflag s hsess
    refine ⟨⟨w.store, w.uuidSeed, w.calls ++ [ExtCall.postMessage channelID]⟩,
      ?_, rfl, hflag, rfl, rfl, rfl, Or.inl rfl, hretry _ hflag⟩
    simp [postDailySummary, hsess, hsp, hch, callPostMessage, hfail]
  | none =>
    have hsess' : List.find? (sessionKeyIs channelID clock.serverDate)
        w.store.sessions = none := hsess
    set newSession : Session :=
      { sessionID := uuidString w.uuidSeed, channelID := channelID,
        date := clock.serverDate, status := sessionPending,
        summaryPosted := false, createdAt := clock.stamp,
        completedAt := none } with hnewdef
    set stC : StoreState :=
      { w.store with sessions := w.store.sessions ++ [newSession] } with hstC
    have hkey : sessionKeyIs channelID clock.serverDate newSession = true := by
      simp [sessionKeyIs, hnewdef]
    have hgetC : getSessionOpt stC channelID clock.serverDate =
        some newSession := by
      rw [hstC]
      show (w.store.sessions ++ [newSession]).find?
        (sessionKeyIs channelID clock.serverDate) = some newSession
      rw [find?_append_of_none _ _ _ hsess']
      simp [List.find?, hkey]
    have hflagC : ∀ s : Session,
        getSessionOpt stC channelID clock.serverDate = some s →
        s.summaryPosted = false := by
      intro s hs0
      rw [hgetC] at hs0
      cases hs0
      rfl
    refine ⟨⟨stC, w.uuidSeed + 1, w.calls ++ [ExtCall.postMessage channelID]⟩,
      ?_, rfl, hflagC, by rw [hstC], by rw [hstC], by rw [hstC],
      Or.inr ⟨newSession, rfl, rfl, rfl, rfl, by rw [hstC]⟩, hretry _ hflagC⟩
    simp [postDailySummary, hsess', startStandupSession, createOrRecover,
      createSession, getSessionOpt, hch, callPostMessage, hfail, hstC, hnewdef]

/-- C6 witness: the theorem applied at a concrete world whose notifier is
down. -/
theorem postDailySummary_failure_leaves_flag_unset_witness :
    failEnv.postMessage "C1" = Except.error "slack API error: down" ∧
    channelByID demoBotCfg "C1" =
      some { id := "C1", enabled := true,
             users := [{ id := "X", name := "Xan" },
                       { id := "Y", name := "Yve" }] } ∧
    ∃ w1 : World,
      postDailySummary demoBotCfg failEnv demoClock demoWorld "C1" =
        (Except.error "failed to post summary", w1) ∧
      w1.calls = demoWorld.calls ++ [ExtCall.postMessage "C1"] ∧
      (∀ s : Session,
        getSessionOpt w1.store "C1" demoClock.serverDate = some s →
        s.summaryPosted = false) ∧
      w1.store.responses = demoWorld.store.responses ∧
      w1.store.reminders = demoWorld.store.reminders ∧
      w1.store.configs = demoWorld.store.configs ∧
      (w1.store.sessions = demoWorld.store.sessions ∨
        ∃ snew : Session, snew.summaryPosted = false ∧
          snew.status = sessionPending ∧ snew.channelID = "C1" ∧
          snew.date = demoClock.serverDate ∧
          w1.store.sessions = demoWorld.store.sessions ++ [snew]) ∧
      (∀ (config : ChannelConfig) (env2 : SlackEnv) (ts : String),
        config.channelID = "C1" →
        env2.postMessage "C1" = Except.ok ts →
        isTimeMatch (demoClock.localTime config.schedule.timezone)
          config.schedule.summaryTime = true →
        demoClock.localDate config.schedule.timezone =
          demoClock.serverDate →
        ∃ w2 : World,
          processDailySummary demoBotCfg env2 demoClock w1 config =
            (Except.ok (), w2) ∧
          w2.calls = w1.calls ++ [ExtCall.postMessage "C1"] ∧
          ∃ s2 : Session,
            getSessionOpt w2.store "C1" demoClock.serverDate = some s2 ∧
            s2.summaryPosted = true) :=
  ⟨rfl, rfl,
    postDailySummary_failure_leaves_flag_unset demoBotCfg failEnv demoClock
      demoWorld "C1" "slack API error: down" _ rfl rfl
      (fun s h => by simp [getSessionOpt, demoWorld, List.find?] at h)⟩

/-! ### Claim C1: summary is posted exactly once under repeated ticks -/

/-- C1: with the clock frozen inside the due window and every collaborator
healthy, five consecutive orchestrator ticks over a due channel post the
summary exactly once (the trace grows by a single `PostMessage` to the
channel), the session's `summary_posted` flag is true right after the first
tick, and every later tick leaves the world exactly as the first tick left
it. -/
theorem summary_posted_exactly_once
    (cfg : BotConfig) (env : SlackEnv) (clock : Clock) (w : World)
    (config : ChannelConfig) (bch : BotChannel) (ts : String)
    (hcfg : w.store.configs = [config])
    (hen : config.enabled = true)
    (hactive : isActiveDay config clock = true)
    (hdue : isTimeMatch (clock.localTime config.schedule.timezone)
      config.schedule.summaryTime = true)
    (hnorem : config.schedule.reminderTimes = [])
    (hch : channelByID cfg config.channelID = some bch)
    (hok : env.postMessage config.channelID = Except.ok ts)
    (hflagL : ∀ s : Session, getSessionOpt w.store config.channelID
      (clock.localDate config.schedule.timezone) = some s →
      s.summaryPosted = false)
    (hflagS : ∀ s : Session,
      getSessionOpt w.store config.channelID clock.serverDate = some s →
      s.summaryPosted = false) :
    (tickIter cfg env clock 5 w).calls =
      w.calls ++ [ExtCall.postMessage config.channelID] ∧
    (∃ s2 : Session,
      getSessionOpt (tickIter cfg env clock 1 w).store config.channelID
        clock.serverDate = some s2 ∧ s2.summaryPosted = true) ∧
    (∀ n : Nat, 1 ≤ n →
      tickIter cfg env clock n w = tickIter cfg env clock 1 w) := by
  have hlist : listActiveChannelConfigs w.store = [config] := by
    simp [listActiveChannelConfigs, hcfg, hen]
  obtain ⟨w2, hrun, hcalls, ⟨s2, hs2, hs2p, _⟩, _, hcfgs, _, _⟩ :=
    processDailySummary_posts_when_due cfg env clock w config ts bch hok hch
      hdue hflagL hflagS
  have htick1 : tick cfg env clock w = w2 := by
    simp only [tick, hlist, processScheduledTasks, processChannels, hactive,
      Bool.not_true, Bool.false_eq_true, if_false,
      processReminders_no_times cfg env clock w config hnorem, hrun]
  have hlist2 : listActiveChannelConfigs w2.store = [config] := by
    simp [listActiveChannelConfigs, hcfgs, hcfg, hen]
  have hfix : tick cfg env clock w2 = w2 := by
    have halready := processDailySummary_already cfg env clock w2 config s2
      hs2 hs2p
    simp only [tick, hlist2, processScheduledTasks, processChannels, hactive,
      Bool.not_true, Bool.false_eq_true, if_false,
      processReminders_no_times cfg env clock w2 config hnorem, halready]
  have hstay : ∀ n : Nat, tickIter cfg env clock n w2 = w2 := by
    intro n
    induction n with
    | zero => rfl
    | succ k ih =>
      show tickIter cfg env clock k (tick cfg env clock w2) = w2
      rw [hfix]
      exact ih
  have hone : tickIter cfg env clock 1 w = w2 := by
    show tickIter cfg env clock 0 (tick cfg env clock w) = w2
    rw [htick1]
    rfl
  have hall : ∀ n : Nat, 1 ≤ n → tickIter cfg env clock n w = w2 := by
    intro n hn
    cases n with
    | zero => cases hn
    | succ k =>
      show tickIter cfg env clock k (tick cfg env clock w) = w2
      rw [htick1]
      exact hstay k
  refine ⟨?_, ⟨s2, ?_, hs2p⟩, ?_⟩
  · rw [hall 5 (by decide)]
    exact hcalls
  · rw [hone]
    exact hs2
  · intro n hn
    rw [hall n hn, hone]

/-- C1 witness: the theorem applied to the concrete demo world at the
frozen 09:00 instant. -/
theorem summary_posted_exactly_once_witness :
    (tickIter demoBotCfg demoEnv demoClock 5 demoWorld).calls =
      demoWorld.calls ++ [ExtCall.postMessage demoConfig.channelID] ∧
    (∃ s2 : Session,
      getSessionOpt (tickIter demoBotCfg demoEnv demoClock 1 demoWorld).store
        demoConfig.channelID demoClock.serverDate = some s2 ∧
      s2.summaryPosted = true) ∧
    (∀ n : Nat, 1 ≤ n →
      tickIter demoBotCfg demoEnv demoClock n demoWorld =
        tickIter demoBotCfg demoEnv demoClock 1 demoWorld) :=
  summary_posted_exactly_once demoBotCfg demoEnv demoClock demoWorld
    demoConfig _ "ts1" rfl rfl (by decide) (by decide) rfl rfl rfl
    (fun s h => by simp [getSessionOpt, demoWorld, List.find?] at h)
    (fun s h => by simp [getSessionOpt, demoWorld, List.find?] at h)

/-! ### Claim C7: per-channel failure isolation -/

/-- C7: a failing channel-list fetch aborts the whole tick with an error
and no processing; otherwise the tick always returns success, swallowing
per-channel errors; concretely, with three due channels where CH2's
notifier call fails, CH1 and CH3 still get their summaries posted (flags
set) while CH2's post was attempted but its flag stays false. -/
theorem perChannel_failure_isolated :
    (∀ (cfg : BotConfig) (env : SlackEnv) (clock : Clock) (w : World)
       (e : String),
      processScheduledTasks cfg env clock (Except.error e) w =
        (Except.error ("failed to list active configs: " ++ e), w)) ∧
    (∀ (cfg : BotConfig) (env : SlackEnv) (clock : Clock) (w : World)
       (configs : List ChannelConfig),
      (processScheduledTasks cfg env clock (Except.ok configs) w).1 =
        Except.ok ()) ∧
    isoResult.1 = Except.ok () ∧
    isoResult.2.calls =
      [ExtCall.postMessage "CH1", ExtCall.postMessage "CH2",
       ExtCall.postMessage "CH3"] ∧
    (getSessionOpt isoResult.2.store "CH1" "2025-01-06").map
      Session.summaryPosted = some true ∧
    (getSessionOpt isoResult.2.store "CH2" "2025-01-06").map
      Session.summaryPosted = some false ∧
    (getSessionOpt isoResult.2.store "CH3" "2025-01-06").map
      Session.summaryPosted = some true := by
  refine ⟨?_, ?_, rfl, by decide, by decide, by decide, by decide⟩
  · intro cfg env clock w e
    rfl
  · intro cfg env clock w configs
    rfl

/-! ### Claim C8: the session date key is the server-local day, not the
channel-local day -/

/-- C8 evidence: with the clock frozen where the server-local day is
2025-01-01 but the channel-local day is already 2025-01-02, the tick's
summary path creates, posts and marks the session under the server-local
date 2025-01-01, while the scheduler's due/dedup check reads the
channel-local date 2025-01-02, where no session ever appears. -/
theorem session_date_keyed_to_server_day :
    skewClock.serverDate = "2025-01-01" ∧
    skewClock.localDate skewConfig.schedule.timezone = "2025-01-02" ∧
    (startStandupSession skewClock skewWorld "C1").2.store.sessions.map
      Session.date = ["2025-01-01"] ∧
    (getSessionOpt skewResult.store "C1" "2025-01-01").map Session.date =
      some "2025-01-01" ∧
    (getSessionOpt skewResult.store "C1" "2025-01-01").map
      Session.summaryPosted = some true ∧
    getSessionOpt skewResult.store "C1" "2025-01-02" = none := by
  refine ⟨rfl, rfl, by decide, by decide, by decide, by decide⟩

/-! ### Claim C2: reminder deduplication granularity -/

theorem remindEach_notifies_all (cfg : BotConfig) (env : SlackEnv)
    (clock : Clock) (gi dm tsf : String → String)
    (hgi : ∀ u, env.getUserInfo u = Except.ok (gi u))
    (hdm : ∀ u, env.openDM u = Except.ok (dm u))
    (hpm : ∀ c, env.postMessage c = Except.ok (tsf c))
    (channelID channelName rt : String) (bch : BotChannel)
    (hch : channelByID cfg channelID = some bch) :
    ∀ (users : List String) (w : World),
      (remindEach cfg env clock users w channelID channelName rt).calls =
        w.calls ++ users.flatMap (fun u =>
          [ExtCall.getUserInfo u, ExtCall.openDM u,
           ExtCall.postMessage (dm u)]) ∧
      (∀ u ∈ users, hasReminderFor
        (remindEach cfg env clock users w channelID channelName rt).store
        channelID clock.serverDate u rt) ∧
      (∀ c d u t : String, hasReminderFor w.store c d u t → hasReminderFor
        (remindEach cfg env clock users w channelID channelName rt).store
        c d u t) ∧
      (remindEach cfg env clock users w channelID channelName rt).store.configs =
        w.store.configs ∧
      (remindEach cfg env clock users w channelID channelName rt).store.sessions =
        w.store.sessions := by
  intro users
  induction users with
  | nil =>
    intro w
    exact ⟨by simp [remindEach], by simp, fun c d u t h => h, rfl, rfl⟩
  | cons u rest ih =>
    intro w
    set rec : Reminder :=
      { channelID := channelID, date := clock.serverDate, userID := u,
        time := rt, sentAt := clock.stamp, messageTS := tsf (dm u) } with hrec
    set wStep : World :=
      ⟨incrementReminderCount (saveReminder w.store rec) channelID
          clock.serverDate u, w.uuidSeed,
        w.calls ++ [ExtCall.getUserInfo u, ExtCall.openDM u,
          ExtCall.postMessage (dm u)]⟩ with hws
    have hstep : sendReminderToUser cfg env clock w u channelID channelName rt =
        (Except.ok (), wStep) := by
      simp [sendReminderToUser, hch, callGetUserInfo, callOpenDM,
        callPostMessage, hgi u, hdm u, hpm (dm u), hrec, hws]
    have hre : remindEach cfg env clock (u :: rest) w channelID channelName rt =
        remindEach cfg env clock rest wStep channelID channelName rt := by
      simp only [remindEach, hstep]
    obtain ⟨ihcalls, ihall, ihmono, ihcfg, ihsess⟩ := ih wStep
    have hrecIn : hasReminderFor wStep.store channelID clock.serverDate u rt := by
      rw [hws]
      refine (hasReminderFor_incr _ _ _ _ _ _ _ _).mpr ?_
      have := hasReminderFor_saveReminder_self w.store rec
      simpa [hrec] using this
    refine ⟨?_, ?_, ?_, ?_, ?_⟩
    · rw [hre, ihcalls, hws]
      simp [List.flatMap_cons, List.append_assoc]
    · intro v hv
      rw [hre]
      rcases List.mem_cons.mp hv with hvu | hvrest
      · subst hvu
        exact ihmono _ _ _ _ hrecIn
      · exact ihall v hvrest
    · intro c d v t hbase
      rw [hre]
      refine ihmono _ _ _ _ ?_
      rw [hws]
      refine (hasReminderFor_incr _ _ _ _ _ _ _ _).mpr ?_
      exact hasReminderFor_saveReminder_mono w.store rec c d v t hbase
    · rw [hre, ihcfg, hws]
      rw [(incr_preserves_rest _ _ _ _).1, (saveReminder_preserves_rest _ _).1]
    · rw [hre, ihsess, hws]
      rw [(incr_preserves_rest _ _ _ _).2.1,
        (saveReminder_preserves_rest _ _).2.1]

/-- C2 counterexample: participant Y has no reminder record for
(C1, 2025-01-06, 08:30) and is missing, X's record for that trigger time
exists, the trigger is due — yet the tick invokes the notifier for nobody
and leaves the world untouched, contradicting per-participant dedup. -/
theorem reminder_dedup_not_per_participant :
    (¬ hasReminderFor remWorldDone.store "C1" "2025-01-06" "Y" "08:30") ∧
    hasReminderFor remWorldDone.store "C1" "2025-01-06" "X" "08:30" ∧
    getUsersWithoutResponse remWorldDone.store "C1" "2025-01-06"
      remConfig.users = ["X", "Y"] ∧
    isTimeMatch (remClock.localTime remConfig.schedule.timezone) "08:30" =
      true ∧
    processReminders demoBotCfg demoEnv remClock remWorldDone remConfig =
      (Except.ok (), remWorldDone) := by
  refine ⟨by unfold hasReminderFor; decide, by unfold hasReminderFor; decide,
    by decide, by decide, rfl⟩

/-- C2 (amended): reminder dedup is per (channel, date, trigger time)
batch, not per participant. On a due tick, if any reminder record with the
trigger time exists under the channel-local date, no participant is
notified and nothing changes; if none exists, the notifier is invoked for
exactly the missing participants, in roster order, and each notified
participant then has a reminder record for (channel, server-local date,
participant, trigger time). -/
theorem processReminders_batch_dedup
    (cfg : BotConfig) (env : SlackEnv) (clock : Clock) (w : World)
    (config : ChannelConfig) (rt : String) (bch : BotChannel)
    (sc : ChannelConfig) (gi dm tsf : String → String)
    (hrt : config.schedule.reminderTimes = [rt]) :
    ((listReminders w.store config.channelID
        (clock.localDate config.schedule.timezone)).any
        (fun r => r.time == rt) = true →
      processReminders cfg env clock w config = (Except.ok (), w)) ∧
    (isTimeMatch (clock.localTime config.schedule.timezone) rt = true →
     (listReminders w.store config.channelID
        (clock.localDate config.schedule.timezone)).any
        (fun r => r.time == rt) = false →
     getChannelConfigOpt w.store "" config.channelID = some sc →
     sc.enabled = true →
     channelByID cfg config.channelID = some bch →
     (∀ u, env.getUserInfo u = Except.ok (gi u)) →
     (∀ u, env.openDM u = Except.ok (dm u)) →
     (∀ c, env.postMessage c = Except.ok (tsf c)) →
     ∃ w1 : World,
       processReminders cfg env clock w config = (Except.ok (), w1) ∧
       w1.calls = w.calls ++
         (getUsersWithoutResponse w.store config.channelID clock.serverDate
           sc.users).flatMap (fun u =>
             [ExtCall.getUserInfo u, ExtCall.openDM u,
              ExtCall.postMessage (dm u)]) ∧
       ∀ u ∈ getUsersWithoutResponse w.store config.channelID
           clock.serverDate sc.users,
         hasReminderFor w1.store config.channelID clock.serverDate u rt) := by
  constructor
  · intro hsent
    cases hdue : isTimeMatch (clock.localTime config.schedule.timezone) rt with
    | false => simp [processReminders, hrt, processRemindersLoop, hdue]
    | true => simp [processReminders, hrt, processRemindersLoop, hdue, hsent]
  · intro hdue hnosent hconf hen hch hgi hdm hpm
    obtain ⟨hcalls, hall, _, _, _⟩ :=
      remindEach_notifies_all cfg env clock gi dm tsf hgi hdm hpm
        config.channelID sc.channelName rt bch hch
        (getUsersWithoutResponse w.store config.channelID clock.serverDate
          sc.users) w
    refine ⟨_, ?_, hcalls, hall⟩
    simp [processReminders, hrt, processRemindersLoop, hdue, hnosent,
      sendReminders, hconf, hen]

/-- C2 witness: the skip half applied to the world where X's record
exists, and the send half applied to the record-free world, where both X
and Y are notified and recorded. -/
theorem processReminders_batch_dedup_witness :
    (processReminders demoBotCfg demoEnv remClock remWorldDone remConfig =
      (Except.ok (), remWorldDone)) ∧
    ∃ w1 : World,
      processReminders demoBotCfg demoEnv remClock remWorldEmpty remConfig =
        (Except.ok (), w1) ∧
      w1.calls = remWorldEmpty.calls ++
        (getUsersWithoutResponse remWorldEmpty.store remConfig.channelID
          remClock.serverDate remConfig.users).flatMap (fun u =>
            [ExtCall.getUserInfo u, ExtCall.openDM u,
             ExtCall.postMessage ("DM-" ++ u)]) ∧
      ∀ u ∈ getUsersWithoutResponse remWorldEmpty.store remConfig.channelID
          remClock.serverDate remConfig.users,
        hasReminderFor w1.store remConfig.channelID remClock.serverDate u
          "08:30" :=
  ⟨(processReminders_batch_dedup demoBotCfg demoEnv remClock remWorldDone
      remConfig "08:30" demoBotChannel remConfig (fun u => "name-" ++ u)
      (fun u => "DM-" ++ u) (fun _ => "ts1") rfl).1 (by decide),
   (processReminders_batch_dedup demoBotCfg demoEnv remClock remWorldEmpty
      remConfig "08:30" demoBotChannel remConfig (fun u => "name-" ++ u)
      (fun u => "DM-" ++ u) (fun _ => "ts1") rfl).2 (by decide) (by decide)
      (by decide) rfl rfl (fun u => rfl) (fun u => rfl) (fun c => rfl)⟩

end StandupBot
